import Mathlib

/-
Verification of `run_chunked_eval.py` (jina-ai/chunked-pooling).

The script is a CLI harness: it validates options, resolves a task name in
the module globals, loads a model and tokenizer, and invokes the MTEB
evaluation runner twice (late chunking vs. normal pooling), writing to two
fixed output folders.

The shallow embedding below models the script as a function from a
configuration (the parsed CLI options), a task-name registry (the set of
names resolvable by the `globals()` lookup; its contents come from
a wildcard import not in the reviewed sources, so it is a parameter), and
an environment (whether CUDA is available, what `load_model` returns for
`has_instructions`, and whether each downstream library call raises) to an
outcome: the ordered list of observable effects performed, plus an optional
terminating error.  Integers are Lean `Int` (Python ints from `type=int`
options are unbounded and may be negative).
-/

namespace ChunkedEval

/-- Module-level constant `DEFAULT_CHUNKING_STRATEGY = 'fixed'`. -/
def DEFAULT_CHUNKING_STRATEGY : String := "fixed"

/-- Module-level constant `DEFAULT_CHUNK_SIZE = 256`. -/
def DEFAULT_CHUNK_SIZE : Int := 256

/-- Module-level constant `DEFAULT_N_SENTENCES = 5`. -/
def DEFAULT_N_SENTENCES : Int := 5

/-- Module-level constant `BATCH_SIZE = 1`. -/
def BATCH_SIZE : Int := 1

/-- Module-level constant `DEFAULT_LONG_LATE_CHUNKING_OVERLAP_SIZE = 256`. -/
def DEFAULT_LONG_LATE_CHUNKING_OVERLAP_SIZE : Int := 256

/-- Module-level constant `DEFAULT_LONG_LATE_CHUNKING_EMBED_SIZE = 8192`. -/
def DEFAULT_LONG_LATE_CHUNKING_EMBED_SIZE : Int := 8192

/-- The parsed CLI options of `main` (one field per `click.option`). -/
structure Config where
  model_name : String
  strategy : String
  task_name : String
  eval_split : String
  chunking_model : Option String
  truncate_max_length : Option Int
  chunk_size : Int
  n_sentences : Int
  long_late_chunking_embed_size : Int
  long_late_chunking_overlap_size : Int
deriving DecidableEq

/-- The configuration obtained when no CLI flag is given: each field takes
the default declared in the corresponding `click.option`. -/
def defaultConfig : Config :=
  { model_name := "jinaai/jina-embeddings-v2-small-en"
    strategy := DEFAULT_CHUNKING_STRATEGY
    task_name := "SciFactChunked"
    eval_split := "test"
    chunking_model := none
    truncate_max_length := none
    chunk_size := DEFAULT_CHUNK_SIZE
    n_sentences := DEFAULT_N_SENTENCES
    long_late_chunking_embed_size := DEFAULT_LONG_LATE_CHUNKING_EMBED_SIZE
    long_late_chunking_overlap_size := DEFAULT_LONG_LATE_CHUNKING_OVERLAP_SIZE }

/-- The environment of a run: facts the script only observes.
`hasInstructions` is the second component returned by `load_model`;
`cudaAvailable` models `torch.cuda.is_available()`; the four `Option Nat`
fields say whether the corresponding downstream library call raises, and
if so carry an abstract identifier of the raised exception (`none` means
the call succeeds). -/
structure Env where
  hasInstructions : Bool
  cudaAvailable : Bool
  loadModelFails : Option Nat
  tokenizerFails : Option Nat
  run1Fails : Option Nat
  run2Fails : Option Nat
deriving DecidableEq

/-- Errors that terminate `main`: the two errors the script raises itself,
and an arbitrary downstream exception propagated unchanged (identified by
the abstract identifier from `Env`). -/
inductive Err where
  | valueError (msg : String)
  | assertionError (msg : String)
  | downstream (id : Nat)
deriving DecidableEq

/-- The `chunking_args` dictionary built at lines 97-103. -/
structure ChunkingArgs where
  chunk_size : Int
  n_sentences : Int
  chunking_strategy : String
  model_has_instructions : Bool
  embedding_model_name : String
deriving DecidableEq

/-- Keyword arguments passed to a task-class construction.  An `Option`
field set to `none` for the two long-late-chunking sizes means the keyword
was omitted in the call (as in the second construction, lines 140-148);
`some v` means it was passed explicitly with value `v`. -/
structure TaskCtorArgs where
  chunked_pooling_enabled : Bool
  tokenizer_from : String
  prune_size : Option Int
  truncate_max_length : Option Int
  long_late_chunking_embed_size : Option Int
  long_late_chunking_overlap_size : Option Int
  chunking : ChunkingArgs
deriving DecidableEq

/-- Keyword arguments passed to an `MTEB(...)` construction (besides the
task list itself). -/
structure MTEBCtorArgs where
  chunked_pooling_enabled : Bool
  tokenizer_from : String
  prune_size : Option Int
  chunking : ChunkingArgs
deriving DecidableEq

/-- One `evaluation.run(...)` invocation: the model instance passed, the
run arguments, and the task and MTEB constructions backing it. -/
structure RunArgs where
  modelId : Nat
  output_folder : String
  eval_splits : List String
  overwrite_results : Bool
  batch_size : Int
  encode_kwargs_batch_size : Int
  task : TaskCtorArgs
  mteb : MTEBCtorArgs
deriving DecidableEq

/-- Observable effects of the script, in program order.  A model load
allocates an in-process instance identified by `modelId`; `toCuda` and
`evalMode` act on that instance. -/
inductive Event where
  | notice (msg : String)
  | loadModel (modelName : String) (modelId : Nat)
  | loadTokenizer (modelName : String)
  | toCuda (modelId : Nat)
  | evalMode (modelId : Nat)
  | evalRun (args : RunArgs)
deriving DecidableEq

/-- The result of an invocation: the effects performed, in order, and the
error that terminated it, if any. -/
structure Outcome where
  events : List Event
  error : Option Err
deriving DecidableEq

/-- The message printed at line 89. -/
def noticeMsg : String :=
  "Long Late Chunking algorithm will be disabled because truncate max length is defined, hence documents are truncated."

/-- The message of the assertion at line 91. -/
def assertMsg : String :=
  "Define either long late chunking or truncation to handle documents."

/-- The condition of line 87: truncation is defined and the requested
long-late-chunking window is positive. -/
def forcesDisable (cfg : Config) : Bool :=
  cfg.truncate_max_length.isSome && decide (0 < cfg.long_late_chunking_embed_size)

/-- The value of the local `long_late_chunking_embed_size` after lines
87-88: forced to `0` when truncation is defined and the requested window
is positive, unchanged otherwise. -/
def effectiveEmbedSize (cfg : Config) : Int :=
  if forcesDisable cfg then 0 else cfg.long_late_chunking_embed_size

/-- The print effect of line 89, emitted exactly when line 88 forces the
window to zero. -/
def noticeEvents (cfg : Config) : List Event :=
  if forcesDisable cfg then [Event.notice noticeMsg] else []

/-- The `chunking_args` dictionary (lines 97-103): `embedding_model_name`
is `chunking_model if chunking_model else model_name`, with Python
truthiness of an optional string (`None` and `''` are falsy). -/
def chunkingArgs (cfg : Config) (has_instructions : Bool) : ChunkingArgs :=
  { chunk_size := cfg.chunk_size
    n_sentences := cfg.n_sentences
    chunking_strategy := cfg.strategy
    model_has_instructions := has_instructions
    embedding_model_name :=
      match cfg.chunking_model with
      | some s => if s = "" then cfg.model_name else s
      | none => cfg.model_name }

/-- The first evaluation run (lines 110-137): task constructed with
`chunked_pooling_enabled=True` and all long-late-chunking keywords passed
explicitly, results written to `results-chunked-pooling`. -/
def firstRun (cfg : Config) (has_instructions : Bool) : RunArgs :=
  { modelId := 0
    output_folder := "results-chunked-pooling"
    eval_splits := [cfg.eval_split]
    overwrite_results := true
    batch_size := BATCH_SIZE
    encode_kwargs_batch_size := BATCH_SIZE
    task :=
      { chunked_pooling_enabled := true
        tokenizer_from := cfg.model_name
        prune_size := none
        truncate_max_length := cfg.truncate_max_length
        long_late_chunking_embed_size := some (effectiveEmbedSize cfg)
        long_late_chunking_overlap_size := some cfg.long_late_chunking_overlap_size
        chunking := chunkingArgs cfg has_instructions }
    mteb :=
      { chunked_pooling_enabled := true
        tokenizer_from := cfg.model_name
        prune_size := none
        chunking := chunkingArgs cfg has_instructions } }

/-- The second evaluation run (lines 139-164): task constructed with
`chunked_pooling_enabled=False`, the two long-late-chunking keywords
omitted, results written to `results-normal-pooling`. -/
def secondRun (cfg : Config) (has_instructions : Bool) : RunArgs :=
  { modelId := 0
    output_folder := "results-normal-pooling"
    eval_splits := [cfg.eval_split]
    overwrite_results := true
    batch_size := BATCH_SIZE
    encode_kwargs_batch_size := BATCH_SIZE
    task :=
      { chunked_pooling_enabled := false
        tokenizer_from := cfg.model_name
        prune_size := none
        truncate_max_length := cfg.truncate_max_length
        long_late_chunking_embed_size := none
        long_late_chunking_overlap_size := none
        chunking := chunkingArgs cfg has_instructions }
    mteb :=
      { chunked_pooling_enabled := false
        tokenizer_from := cfg.model_name
        prune_size := none
        chunking := chunkingArgs cfg has_instructions } }

/-- Shallow embedding of `main` (lines 70-164).  `registry` is the set of
names resolvable by the `globals()[task_name]` lookup of line 83.  The
function follows the script's control flow: unknown-task lookup, the
forcing of the window and its notice, the assertion, then model load,
tokenizer load, CUDA move, eval-mode switch, and the two evaluation runs,
stopping with a propagated `downstream` error at whichever library call
the environment says raises. -/
def main (registry : List String) (cfg : Config) (env : Env) : Outcome :=
  if cfg.task_name ∈ registry then
    if 0 < effectiveEmbedSize cfg ∨ cfg.truncate_max_length.isSome then
      match env.loadModelFails with
      | some n => { events := noticeEvents cfg, error := some (Err.downstream n) }
      | none =>
        match env.tokenizerFails with
        | some n =>
          { events := noticeEvents cfg ++ [Event.loadModel cfg.model_name 0]
            error := some (Err.downstream n) }
        | none =>
          match env.run1Fails with
          | some n =>
            { events :=
                noticeEvents cfg ++
                  [Event.loadModel cfg.model_name 0, Event.loadTokenizer cfg.model_name] ++
                  (if env.cudaAvailable then [Event.toCuda 0] else []) ++
                  [Event.evalMode 0]
              error := some (Err.downstream n) }
          | none =>
            match env.run2Fails with
            | some n =>
              { events :=
                  noticeEvents cfg ++
                    [Event.loadModel cfg.model_name 0, Event.loadTokenizer cfg.model_name] ++
                    (if env.cudaAvailable then [Event.toCuda 0] else []) ++
                    [Event.evalMode 0, Event.evalRun (firstRun cfg env.hasInstructions)]
                error := some (Err.downstream n) }
            | none =>
              { events :=
                  noticeEvents cfg ++
                    [Event.loadModel cfg.model_name 0, Event.loadTokenizer cfg.model_name] ++
                    (if env.cudaAvailable then [Event.toCuda 0] else []) ++
                    [Event.evalMode 0, Event.evalRun (firstRun cfg env.hasInstructions),
                     Event.evalRun (secondRun cfg env.hasInstructions)]
                error := none }
    else
      { events := noticeEvents cfg, error := some (Err.assertionError assertMsg) }
  else
    { events := [], error := some (Err.valueError ("Unknown task name: " ++ cfg.task_name)) }

/-- Extracts the run arguments from an `evalRun` event, `none` otherwise. -/
def runOfEvent : Event → Option RunArgs
  | Event.evalRun r => some r
  | _ => none

/-- Is the event a model load? -/
def isLoadEvent : Event → Bool
  | Event.loadModel _ _ => true
  | _ => false

/-- The evaluation invocations of an outcome, in order. -/
def evalRuns (o : Outcome) : List RunArgs :=
  o.events.filterMap runOfEvent

/-- How many model loads an outcome performed. -/
def countLoads (o : Outcome) : Nat :=
  (o.events.filter isLoadEvent).length

/-- An environment where every downstream call succeeds, CUDA is absent
and the loaded model carries no instructions. -/
def okEnv : Env :=
  { hasInstructions := false
    cudaAvailable := false
    loadModelFails := none
    tokenizerFails := none
    run1Fails := none
    run2Fails := none }

/-- An environment identical to `okEnv` except that `load_model` raises
the exception identified by `7`. -/
def loadFailEnv : Env :=
  { okEnv with loadModelFails := some 7 }

/-- The default configuration with a truncation length supplied. -/
def truncCfg : Config :=
  { defaultConfig with truncate_max_length := some 100 }

/-- The default configuration with truncation unset and a zero window. -/
def zeroCfg : Config :=
  { defaultConfig with long_late_chunking_embed_size := 0 }

/-- The default configuration with a semantic-chunking model supplied. -/
def altChunkerCfg : Config :=
  { defaultConfig with chunking_model := some "alt-chunker" }

/- Helper lemmas. -/

/-- No evaluation run hides in the optional notice prefix. -/
theorem runsOf_notice (cfg : Config) :
    (noticeEvents cfg).filterMap runOfEvent = [] := by
  unfold noticeEvents; split <;> rfl

/-- No evaluation run hides in the optional CUDA-move event. -/
theorem runsOf_cuda (b : Bool) :
    (if b then [Event.toCuda 0] else []).filterMap runOfEvent = [] := by
  cases b <;> rfl

/-- No model load hides in the optional notice prefix. -/
theorem loads_notice (cfg : Config) :
    (noticeEvents cfg).filter isLoadEvent = [] := by
  unfold noticeEvents; split <;> rfl

/-- No model load hides in the optional CUDA-move event. -/
theorem loads_cuda (b : Bool) :
    (if b then [Event.toCuda 0] else []).filter isLoadEvent = [] := by
  cases b <;> rfl

/-- On the success path (task name found, validation passed, no downstream
call raising), `main` performs exactly the sequence: optional notice, one
model load, one tokenizer load, optional CUDA move, eval-mode switch, and
the two evaluation runs, and terminates without error. -/
theorem main_ok (registry : List String) (cfg : Config) (env : Env)
    (htask : cfg.task_name ∈ registry)
    (hval : 0 < effectiveEmbedSize cfg ∨ cfg.truncate_max_length.isSome)
    (h1 : env.loadModelFails = none) (h2 : env.tokenizerFails = none)
    (h3 : env.run1Fails = none) (h4 : env.run2Fails = none) :
    main registry cfg env =
      { events :=
          noticeEvents cfg ++
            [Event.loadModel cfg.model_name 0, Event.loadTokenizer cfg.model_name] ++
            (if env.cudaAvailable then [Event.toCuda 0] else []) ++
            [Event.evalMode 0, Event.evalRun (firstRun cfg env.hasInstructions),
             Event.evalRun (secondRun cfg env.hasInstructions)]
        error := none } := by
  unfold main
  rw [if_pos htask, if_pos hval, h1, h2, h3, h4]

/-- On the success path the evaluation runs are exactly the two runs, in
order. -/
theorem evalRuns_ok (registry : List String) (cfg : Config) (env : Env)
    (htask : cfg.task_name ∈ registry)
    (hval : 0 < effectiveEmbedSize cfg ∨ cfg.truncate_max_length.isSome)
    (h1 : env.loadModelFails = none) (h2 : env.tokenizerFails = none)
    (h3 : env.run1Fails = none) (h4 : env.run2Fails = none) :
    evalRuns (main registry cfg env) =
      [firstRun cfg env.hasInstructions, secondRun cfg env.hasInstructions] := by
  rw [main_ok registry cfg env htask hval h1 h2 h3 h4]
  simp [evalRuns, List.filterMap_append, runsOf_notice, runsOf_cuda, runOfEvent]

/-- Every evaluation run `main` ever performs is one of the two runs. -/
theorem mem_evalRuns (registry : List String) (cfg : Config) (env : Env) (r : RunArgs)
    (hr : r ∈ evalRuns (main registry cfg env)) :
    r = firstRun cfg env.hasInstructions ∨ r = secondRun cfg env.hasInstructions := by
  obtain ⟨hi, cu, lm, tk, r1f, r2f⟩ := env
  unfold main at hr
  by_cases htask : cfg.task_name ∈ registry
  · rw [if_pos htask] at hr
    by_cases hval : 0 < effectiveEmbedSize cfg ∨ cfg.truncate_max_length.isSome
    · rw [if_pos hval] at hr
      cases lm with
      | some n => simp [evalRuns, List.filterMap_append, runsOf_notice, runOfEvent] at hr
      | none =>
        cases tk with
        | some n =>
          simp [evalRuns, List.filterMap_append, runsOf_notice, runOfEvent] at hr
        | none =>
          cases r1f with
          | some n =>
            simp [evalRuns, List.filterMap_append, runsOf_notice, runsOf_cuda,
              runOfEvent] at hr
          | none =>
            cases r2f with
            | some n =>
              simp [evalRuns, List.filterMap_append, runsOf_notice, runsOf_cuda,
                runOfEvent] at hr
              exact Or.inl hr
            | none =>
              simp [evalRuns, List.filterMap_append, runsOf_notice, runsOf_cuda,
                runOfEvent] at hr
              exact hr
    · rw [if_neg hval] at hr
      simp [evalRuns, runsOf_notice] at hr
  · rw [if_neg htask] at hr
    simp [evalRuns] at hr

/- Claim theorems. -/

/-- C4: for every task name that is not present in the registry resolved
by the `globals()` lookup, `main` raises the unknown-task `ValueError`,
and this check is the first validation performed: the outcome carries no
effect at all (empty event trace), whatever the rest of the configuration
and the environment are. -/
theorem C4_unknown_task_first_check (registry : List String) (cfg : Config) (env : Env)
    (h : cfg.task_name ∉ registry) :
    main registry cfg env =
      { events := []
        error := some (Err.valueError ("Unknown task name: " ++ cfg.task_name)) } := by
  unfold main
  rw [if_neg h]

/-- Witness for C4 at a concrete unknown task name. -/
theorem C4_unknown_task_first_check_witness :
    main ["SciFactChunked"] { defaultConfig with task_name := "NoSuchTask" } okEnv =
      { events := []
        error := some (Err.valueError ("Unknown task name: " ++ "NoSuchTask")) } :=
  C4_unknown_task_first_check ["SciFactChunked"]
    { defaultConfig with task_name := "NoSuchTask" } okEnv (by decide)

/-- C3: when truncation is unset and the long-late-chunking window is 0
(and the task name resolves, the lookup of line 83 coming first), `main`
stops with the `AssertionError` of line 91 and its event trace is empty:
in particular no model or tokenizer load was attempted. -/
theorem C3_assert_before_model_load (registry : List String) (cfg : Config) (env : Env)
    (htask : cfg.task_name ∈ registry)
    (ht : cfg.truncate_max_length = none)
    (hz : cfg.long_late_chunking_embed_size = 0) :
    main registry cfg env =
      { events := [], error := some (Err.assertionError assertMsg) } := by
  have hf : forcesDisable cfg = false := by simp [forcesDisable, ht]
  have he : effectiveEmbedSize cfg = 0 := by simp [effectiveEmbedSize, hf, hz]
  have hn : noticeEvents cfg = [] := by simp [noticeEvents, hf]
  unfold main
  rw [if_pos htask, if_neg (by rw [he, ht]; simp), hn]

/-- Witness for C3 at the default configuration with the window zeroed. -/
theorem C3_assert_before_model_load_witness :
    main ["SciFactChunked"] zeroCfg okEnv =
      { events := [], error := some (Err.assertionError assertMsg) } :=
  C3_assert_before_model_load ["SciFactChunked"] zeroCfg okEnv
    (by decide) rfl rfl

/-- C2: when a truncation length is supplied and the requested window is
positive (and the task name resolves), the effective window is forced to
0, the notice of line 89 is printed, and the first task construction
receives 0 as its long-late-chunking window. -/
theorem C2_window_forced_zero (registry : List String) (cfg : Config) (env : Env) (t : Int)
    (htask : cfg.task_name ∈ registry)
    (ht : cfg.truncate_max_length = some t)
    (hpos : 0 < cfg.long_late_chunking_embed_size) :
    effectiveEmbedSize cfg = 0 ∧
    Event.notice noticeMsg ∈ (main registry cfg env).events ∧
    (firstRun cfg env.hasInstructions).task.long_late_chunking_embed_size = some 0 := by
  have hf : forcesDisable cfg = true := by simp [forcesDisable, ht, hpos]
  have he : effectiveEmbedSize cfg = 0 := by simp [effectiveEmbedSize, hf]
  have hn : noticeEvents cfg = [Event.notice noticeMsg] := by simp [noticeEvents, hf]
  have hval : 0 < effectiveEmbedSize cfg ∨ cfg.truncate_max_length.isSome :=
    Or.inr (by rw [ht]; rfl)
  have hmem : Event.notice noticeMsg ∈ (main registry cfg env).events := by
    obtain ⟨hi, cu, lm, tk, r1f, r2f⟩ := env
    unfold main
    rw [if_pos htask, if_pos hval]
    cases lm <;> cases tk <;> cases r1f <;> cases r2f <;> simp [hn]
  exact ⟨he, hmem, by simp [firstRun, he]⟩

/-- Witness for C2 at the default configuration with truncation 100. -/
theorem C2_window_forced_zero_witness :
    effectiveEmbedSize truncCfg = 0 ∧
    Event.notice noticeMsg ∈ (main ["SciFactChunked"] truncCfg okEnv).events ∧
    (firstRun truncCfg okEnv.hasInstructions).task.long_late_chunking_embed_size =
      some 0 :=
  C2_window_forced_zero ["SciFactChunked"] truncCfg okEnv 100
    (by decide) rfl (by decide)

/-- C5: invariant — whenever execution reaches an evaluation run, no task
construction ever receives a positive long-late-chunking window while a
truncation length is set, for every integer value of the requested window
(negative values included). -/
theorem C5_no_truncation_with_positive_window (registry : List String) (cfg : Config)
    (env : Env) (r : RunArgs) (e : Int)
    (hr : r ∈ evalRuns (main registry cfg env))
    (ht : cfg.truncate_max_length.isSome)
    (he : r.task.long_late_chunking_embed_size = some e) :
    e ≤ 0 := by
  rcases mem_evalRuns registry cfg env r hr with h | h
  · subst h
    simp only [firstRun, Option.some.injEq] at he
    rw [← he]
    unfold effectiveEmbedSize forcesDisable
    rw [ht]
    split
    · exact le_refl 0
    · rename_i hcond
      simp at hcond
      omega
  · subst h
    simp [secondRun] at he

/-- Witness for C5: with truncation 100 the first run's window is 0 ≤ 0. -/
theorem C5_no_truncation_with_positive_window_witness :
    (0 : Int) ≤ 0 :=
  C5_no_truncation_with_positive_window ["SciFactChunked"] truncCfg okEnv
    (firstRun truncCfg okEnv.hasInstructions) 0
    (by decide) (by decide) (by decide)

/-- C9: every evaluation invocation `main` ever performs uses batch size 1,
both as the run's `batch_size` and inside `encode_kwargs`; no field of the
configuration can change this. -/
theorem C9_batch_size_always_one (registry : List String) (cfg : Config) (env : Env)
    (r : RunArgs)
    (hr : r ∈ evalRuns (main registry cfg env)) :
    r.batch_size = 1 ∧ r.encode_kwargs_batch_size = 1 := by
  rcases mem_evalRuns registry cfg env r hr with h | h <;> subst h <;> exact ⟨rfl, rfl⟩

/-- Witness for C9 at the default configuration's first run. -/
theorem C9_batch_size_always_one_witness :
    (firstRun defaultConfig okEnv.hasInstructions).batch_size = 1 ∧
    (firstRun defaultConfig okEnv.hasInstructions).encode_kwargs_batch_size = 1 :=
  C9_batch_size_always_one ["SciFactChunked"] defaultConfig okEnv
    (firstRun defaultConfig okEnv.hasInstructions) (by decide)

/-- C10: in every evaluation invocation, the embedding model name passed
to the task and MTEB constructions is the chunking-model option when it is
a non-empty string, and the main model-name option otherwise (`None` or
empty string). -/
theorem C10_embedding_model_fallback (registry : List String) (cfg : Config) (env : Env)
    (r : RunArgs)
    (hr : r ∈ evalRuns (main registry cfg env)) :
    r.task.chunking.embedding_model_name =
      (match cfg.chunking_model with
        | some s => if s = "" then cfg.model_name else s
        | none => cfg.model_name) ∧
    r.mteb.chunking.embedding_model_name =
      (match cfg.chunking_model with
        | some s => if s = "" then cfg.model_name else s
        | none => cfg.model_name) := by
  rcases mem_evalRuns registry cfg env r hr with h | h <;> subst h <;> exact ⟨rfl, rfl⟩

/-- Witness for C10 at a configuration supplying a chunking model. -/
theorem C10_embedding_model_fallback_witness :
    (firstRun altChunkerCfg okEnv.hasInstructions).task.chunking.embedding_model_name =
      (match altChunkerCfg.chunking_model with
        | some s => if s = "" then altChunkerCfg.model_name else s
        | none => altChunkerCfg.model_name) ∧
    (firstRun altChunkerCfg okEnv.hasInstructions).mteb.chunking.embedding_model_name =
      (match altChunkerCfg.chunking_model with
        | some s => if s = "" then altChunkerCfg.model_name else s
        | none => altChunkerCfg.model_name) :=
  C10_embedding_model_fallback ["SciFactChunked"] altChunkerCfg okEnv
    (firstRun altChunkerCfg okEnv.hasInstructions) (by decide)

/-- C1 counterexample: already at the all-defaults configuration on the
success path, the two task constructions do NOT differ only in the
chunked-pooling flag: the first passes the long-late-chunking embed and
overlap sizes explicitly while the second omits both keywords, so the
second construction is not the first with the flag flipped. -/
theorem C1_second_task_ctor_differs :
    evalRuns (main ["SciFactChunked"] defaultConfig okEnv) =
      [firstRun defaultConfig okEnv.hasInstructions,
       secondRun defaultConfig okEnv.hasInstructions] ∧
    (secondRun defaultConfig okEnv.hasInstructions).task ≠
      { (firstRun defaultConfig okEnv.hasInstructions).task with
          chunked_pooling_enabled := false } := by
  constructor
  · exact evalRuns_ok ["SciFactChunked"] defaultConfig okEnv
      (by decide) (Or.inl (by decide)) rfl rfl rfl rfl
  · decide

/-- C1 (amended): for every configuration passing both validations, on
the success path `main` performs exactly two evaluation invocations, the
first writing to `results-chunked-pooling` and the second to the distinct
folder `results-normal-pooling`; the two MTEB constructions differ only in
the chunked-pooling flag, and the two task constructions differ only in
that flag and in the second omitting the long-late-chunking embed-size and
overlap-size keywords (which only the first passes); the two runs are
otherwise identical. -/
theorem C1_two_runs_fixed_folders (registry : List String) (cfg : Config) (env : Env)
    (htask : cfg.task_name ∈ registry)
    (hval : 0 < effectiveEmbedSize cfg ∨ cfg.truncate_max_length.isSome)
    (h1 : env.loadModelFails = none) (h2 : env.tokenizerFails = none)
    (h3 : env.run1Fails = none) (h4 : env.run2Fails = none) :
    evalRuns (main registry cfg env) =
      [firstRun cfg env.hasInstructions, secondRun cfg env.hasInstructions] ∧
    (firstRun cfg env.hasInstructions).output_folder = "results-chunked-pooling" ∧
    (secondRun cfg env.hasInstructions).output_folder = "results-normal-pooling" ∧
    "results-chunked-pooling" ≠ "results-normal-pooling" ∧
    (secondRun cfg env.hasInstructions).mteb =
      { (firstRun cfg env.hasInstructions).mteb with chunked_pooling_enabled := false } ∧
    (secondRun cfg env.hasInstructions).task =
      { (firstRun cfg env.hasInstructions).task with
          chunked_pooling_enabled := false
          long_late_chunking_embed_size := none
          long_late_chunking_overlap_size := none } ∧
    secondRun cfg env.hasInstructions =
      { firstRun cfg env.hasInstructions with
          output_folder := "results-normal-pooling"
          task := (secondRun cfg env.hasInstructions).task
          mteb := (secondRun cfg env.hasInstructions).mteb } :=
  ⟨evalRuns_ok registry cfg env htask hval h1 h2 h3 h4,
    rfl, rfl, by decide, rfl, rfl, rfl⟩

/-- Witness for the amended C1 at the all-defaults configuration. -/
theorem C1_two_runs_fixed_folders_witness :
    evalRuns (main ["SciFactChunked"] defaultConfig okEnv) =
      [firstRun defaultConfig okEnv.hasInstructions,
       secondRun defaultConfig okEnv.hasInstructions] ∧
    (firstRun defaultConfig okEnv.hasInstructions).output_folder =
      "results-chunked-pooling" ∧
    (secondRun defaultConfig okEnv.hasInstructions).output_folder =
      "results-normal-pooling" ∧
    "results-chunked-pooling" ≠ "results-normal-pooling" ∧
    (secondRun defaultConfig okEnv.hasInstructions).mteb =
      { (firstRun defaultConfig okEnv.hasInstructions).mteb with
          chunked_pooling_enabled := false } ∧
    (secondRun defaultConfig okEnv.hasInstructions).task =
      { (firstRun defaultConfig okEnv.hasInstructions).task with
          chunked_pooling_enabled := false
          long_late_chunking_embed_size := none
          long_late_chunking_overlap_size := none } ∧
    secondRun defaultConfig okEnv.hasInstructions =
      { firstRun defaultConfig okEnv.hasInstructions with
          output_folder := "results-normal-pooling"
          task := (secondRun defaultConfig okEnv.hasInstructions).task
          mteb := (secondRun defaultConfig okEnv.hasInstructions).mteb } :=
  C1_two_runs_fixed_folders ["SciFactChunked"] defaultConfig okEnv
    (by decide) (Or.inl (by decide)) rfl rfl rfl rfl

/-- C6: apart from the task-name lookup, `main` installs no exception
handler: given a configuration that passes both validations, whichever of
the four downstream library calls (model load, tokenizer load, first run,
second run) raises, `main` terminates with exactly that exception,
unchanged, having performed no retry: no evaluation run follows the
failure (and a second-run failure leaves exactly the first run done). -/
theorem C6_downstream_errors_propagate (registry : List String) (cfg : Config)
    (env : Env) (n : Nat)
    (htask : cfg.task_name ∈ registry)
    (hval : 0 < effectiveEmbedSize cfg ∨ cfg.truncate_max_length.isSome) :
    (env.loadModelFails = some n →
      (main registry cfg env).error = some (Err.downstream n) ∧
      evalRuns (main registry cfg env) = []) ∧
    (env.loadModelFails = none → env.tokenizerFails = some n →
      (main registry cfg env).error = some (Err.downstream n) ∧
      evalRuns (main registry cfg env) = []) ∧
    (env.loadModelFails = none → env.tokenizerFails = none → env.run1Fails = some n →
      (main registry cfg env).error = some (Err.downstream n) ∧
      evalRuns (main registry cfg env) = []) ∧
    (env.loadModelFails = none → env.tokenizerFails = none → env.run1Fails = none →
      env.run2Fails = some n →
      (main registry cfg env).error = some (Err.downstream n) ∧
      evalRuns (main registry cfg env) = [firstRun cfg env.hasInstructions]) := by
  obtain ⟨hi, cu, lm, tk, r1f, r2f⟩ := env
  unfold main
  rw [if_pos htask, if_pos hval]
  refine ⟨?_, ?_, ?_, ?_⟩ <;> cases lm <;> cases tk <;> cases r1f <;> cases r2f <;>
    simp_all [evalRuns, List.filterMap_append, runsOf_notice, runsOf_cuda, runOfEvent]

/-- Witness for C6: a model-load failure with exception id 7, at the
all-defaults configuration. -/
theorem C6_downstream_errors_propagate_witness :
    (loadFailEnv.loadModelFails = some 7 →
      (main ["SciFactChunked"] defaultConfig loadFailEnv).error =
        some (Err.downstream 7) ∧
      evalRuns (main ["SciFactChunked"] defaultConfig loadFailEnv) = []) ∧
    (loadFailEnv.loadModelFails = none → loadFailEnv.tokenizerFails = some 7 →
      (main ["SciFactChunked"] defaultConfig loadFailEnv).error =
        some (Err.downstream 7) ∧
      evalRuns (main ["SciFactChunked"] defaultConfig loadFailEnv) = []) ∧
    (loadFailEnv.loadModelFails = none → loadFailEnv.tokenizerFails = none →
      loadFailEnv.run1Fails = some 7 →
      (main ["SciFactChunked"] defaultConfig loadFailEnv).error =
        some (Err.downstream 7) ∧
      evalRuns (main ["SciFactChunked"] defaultConfig loadFailEnv) = []) ∧
    (loadFailEnv.loadModelFails = none → loadFailEnv.tokenizerFails = none →
      loadFailEnv.run1Fails = none → loadFailEnv.run2Fails = some 7 →
      (main ["SciFactChunked"] defaultConfig loadFailEnv).error =
        some (Err.downstream 7) ∧
      evalRuns (main ["SciFactChunked"] defaultConfig loadFailEnv) =
        [firstRun defaultConfig loadFailEnv.hasInstructions]) :=
  C6_downstream_errors_propagate ["SciFactChunked"] defaultConfig loadFailEnv 7
    (by decide) (Or.inl (by decide))

/-- C7: on the success path the model is loaded exactly once, and both
evaluation runs are passed the same single in-process model instance (the
one allocated by that load); no second load occurs between the runs. -/
theorem C7_model_loaded_once (registry : List String) (cfg : Config) (env : Env)
    (htask : cfg.task_name ∈ registry)
    (hval : 0 < effectiveEmbedSize cfg ∨ cfg.truncate_max_length.isSome)
    (h1 : env.loadModelFails = none) (h2 : env.tokenizerFails = none)
    (h3 : env.run1Fails = none) (h4 : env.run2Fails = none) :
    countLoads (main registry cfg env) = 1 ∧
    Event.loadModel cfg.model_name 0 ∈ (main registry cfg env).events ∧
    (evalRuns (main registry cfg env)).map RunArgs.modelId = [0, 0] := by
  refine ⟨?_, ?_, ?_⟩
  · rw [main_ok registry cfg env htask hval h1 h2 h3 h4]
    simp [countLoads, List.filter_append, loads_notice, loads_cuda, isLoadEvent]
  · rw [main_ok registry cfg env htask hval h1 h2 h3 h4]
    simp
  · rw [evalRuns_ok registry cfg env htask hval h1 h2 h3 h4]
    rfl

/-- Witness for C7 at the all-defaults configuration. -/
theorem C7_model_loaded_once_witness :
    countLoads (main ["SciFactChunked"] defaultConfig okEnv) = 1 ∧
    Event.loadModel defaultConfig.model_name 0 ∈
      (main ["SciFactChunked"] defaultConfig okEnv).events ∧
    (evalRuns (main ["SciFactChunked"] defaultConfig okEnv)).map RunArgs.modelId =
      [0, 0] :=
  C7_model_loaded_once ["SciFactChunked"] defaultConfig okEnv
    (by decide) (Or.inl (by decide)) rfl rfl rfl rfl

/-- C8: every CLI flag has a default, and the all-defaults invocation
passes both validations: its task name is the registered default, its
truncation is unset, its window is 8192 > 0 (so it stays 8192 and long
late chunking remains enabled), and on the success path `main` terminates
without error. -/
theorem C8_defaults_pass_validations (registry : List String) (env : Env)
    (htask : "SciFactChunked" ∈ registry)
    (h1 : env.loadModelFails = none) (h2 : env.tokenizerFails = none)
    (h3 : env.run1Fails = none) (h4 : env.run2Fails = none) :
    defaultConfig.task_name = "SciFactChunked" ∧
    defaultConfig.truncate_max_length = none ∧
    defaultConfig.long_late_chunking_embed_size =
      DEFAULT_LONG_LATE_CHUNKING_EMBED_SIZE ∧
    DEFAULT_LONG_LATE_CHUNKING_EMBED_SIZE = 8192 ∧
    effectiveEmbedSize defaultConfig = 8192 ∧
    (main registry defaultConfig env).error = none ∧
    (firstRun defaultConfig env.hasInstructions).task.long_late_chunking_embed_size =
      some 8192 := by
  refine ⟨rfl, rfl, rfl, rfl, rfl, ?_, rfl⟩
  rw [main_ok registry defaultConfig env htask (Or.inl (by decide)) h1 h2 h3 h4]

/-- Witness for C8 with the singleton registry and the benign
environment. -/
theorem C8_defaults_pass_validations_witness :
    defaultConfig.task_name = "SciFactChunked" ∧
    defaultConfig.truncate_max_length = none ∧
    defaultConfig.long_late_chunking_embed_size =
      DEFAULT_LONG_LATE_CHUNKING_EMBED_SIZE ∧
    DEFAULT_LONG_LATE_CHUNKING_EMBED_SIZE = 8192 ∧
    effectiveEmbedSize defaultConfig = 8192 ∧
    (main ["SciFactChunked"] defaultConfig okEnv).error = none ∧
    (firstRun defaultConfig okEnv.hasInstructions).task.long_late_chunking_embed_size =
      some 8192 :=
  C8_defaults_pass_validations ["SciFactChunked"] okEnv (by decide) rfl rfl rfl rfl

end ChunkedEval
